import Mathlib

/-!
Verification of the translation feature of the web-search/translation CLI.

The development shallowly embeds the Python sources:
  src/translate_parser.py   (TranslationParser.parse)
  src/translate_client.py   (TranslationClient._extract_text, TranslationClient.translate)
  src/translate_service.py  (TranslationService.translate)
  src/main.py               (handle_translate, _validate_targets)
  src/translate_main.py     (ensure_english_included)

Machine-level conventions: Python exceptions become an explicit error type
carried by Except; json.loads, which is standard-library code external to the
repository, is modelled by its outcome, an Option Json (none when the input
string is not syntactically valid JSON); Python dicts produced by json.loads
become association lists with unique keys, which preserves insertion order the
way CPython dicts do.
-/

/-- JSON values as produced by Python json.loads. Objects are association
lists, preserving insertion order as CPython dicts do; numbers are modelled
by integers, which suffices because the parser under study treats every
non-string, non-object value as an unanalysed atom. -/
inductive Json where
  | null : Json
  | bool (b : Bool) : Json
  | num (n : Int) : Json
  | str (s : String) : Json
  | arr (elems : List Json) : Json
  | obj (members : List (String × Json)) : Json

/-- Python dict lookup on the association list produced by json.loads:
first (equivalently, for unique keys, only) binding wins. This models both
obj["k"] and the membership test "k" in obj (present iff the result is some). -/
def dictGet (kvs : List (String × Json)) (key : String) : Option Json :=
  match kvs with
  | [] => none
  | (k, v) :: rest => if k = key then some v else dictGet rest key

/-- Modelled from the spec: TranslationResult lives in src/models.py, which is
not among the provided sources. Section 3 of the spec gives its fields
(original_text, detected_language, translations with insertion order
preserved). As a Python dataclass it stores whatever values the parser passes
without runtime type enforcement, so the payload-valued fields are Json. -/
structure TranslationResult where
  original_text : Json
  detected_language : String
  translations : List (String × Json)

namespace TranslationParser

/-- src/translate_parser.py, TranslationParser.parse. The argument is the
outcome of json.loads on the raw text: none when json.loads raised (any
exception there is turned into the first ValueError), some j otherwise.
The returned Except carries the ValueError message on failure. -/
def parse (loaded : Option Json) : Except String TranslationResult :=
  match loaded with
  | none => .error "Expected JSON translation payload"
  | some (.obj kvs) =>
    match dictGet kvs "detected_language", dictGet kvs "translations" with
    | some detected, some translations =>
      match detected, translations with
      | .str d, .obj tr =>
        .ok { original_text := (dictGet kvs "original_text").getD (.str "")
            , detected_language := d
            , translations := tr }
      | _, _ => .error "Invalid types for detected_language or translations"
    | _, _ => .error "Missing required fields: detected_language, translations"
  | some _ => .error "Expected JSON object at top level"

end TranslationParser

/-- The class of a raised Python exception, as far as the code under study
distinguishes classes: translate_client catches TypeError only, and
translate_service re-raises everything as ValueError. -/
inductive ExcType where
  | typeError : ExcType
  | valueError : ExcType
  | otherError : ExcType
deriving DecidableEq

/-- A raised Python exception: its class together with str(e). -/
structure PyExc where
  ty : ExcType
  msg : String
deriving DecidableEq

/-- A Python value as far as the isinstance string tests of the extractor look at
it: either a string or anything else. -/
inductive PyVal where
  | str (s : String) : PyVal
  | nonStr : PyVal
deriving DecidableEq

/-- The value a response carries at attribute output_text, with the behaviour
the extractor probes: absent; a callable whose invocation returns a string or
raises; a plain string; or some other non-callable, non-string value. -/
inductive OutputTextAttr where
  | absent : OutputTextAttr
  | callableRet (s : String) : OutputTextAttr
  | callableRaise (e : PyExc) : OutputTextAttr
  | strProp (s : String) : OutputTextAttr
  | otherProp : OutputTextAttr
deriving DecidableEq

/-- An element of the output[i].content list of a response, carrying what the
structured walk of _extract_text reads from it: getattr(c, "text", None)
(none models Python None, also what getattr yields on a plain dict), whether
the element is a dict, and c.get("text") when it is. -/
structure ContentItem where
  textAttr : Option PyVal
  isDict : Bool
  dictText : Option PyVal
deriving DecidableEq

/-- An element of the output sequence of a response: its content attribute, none
when absent, None, or not a list. -/
structure OutputElem where
  content : Option (List ContentItem)
deriving DecidableEq

/-- An API response as probed by TranslationClient._extract_text: the
output_text attribute, the output attribute (none when absent, None, or not a
list), and str(resp). Attribute reads themselves are value reads and do not
raise in this model; the only modelled raise is invoking a callable
output_text, which is the only raise the Python code distinguishes (its
structured-walk try/except guards exotic attribute objects outside this value
model, and getattr with a default never raises). -/
structure Resp where
  output_text : OutputTextAttr
  output : Option (List OutputElem)
  strRepr : String
deriving DecidableEq

namespace TranslationClient

/-- The text the structured walk of _extract_text (strategy 3) finds on a
content element: content[0].text when it is a string, else content[0]["text"]
when the element is a dict holding a string there. -/
def contentText (c : ContentItem) : Option String :=
  match c.textAttr with
  | some (.str s) => some s
  | _ =>
    if c.isDict then
      match c.dictText with
      | some (.str s) => some s
      | _ => none
    else none

/-- Strategy 3 of _extract_text: output must be a non-empty list whose first
element has a non-empty content list; then read the text off content[0]. -/
def structuredText (r : Resp) : Option String :=
  match r.output with
  | some (e :: _) =>
    match e.content with
    | some (c :: _) => contentText c
    | _ => none
  | _ => none

/-- Strategies 2 to 4 of _extract_text: the output_text value when it is a
plain string, else the structured walk, else str(resp). -/
def extractTail (r : Resp) : Except PyExc String :=
  match r.output_text with
  | .strProp s => .ok s
  | _ =>
    match structuredText r with
    | some s => .ok s
    | none => .ok r.strRepr

/-- src/translate_client.py, TranslationClient._extract_text. Strategy 1:
when output_text is callable, invoke it; a TypeError from the invocation is
swallowed (falling through to the later strategies), every other exception
propagates. -/
def extract_text (r : Resp) : Except PyExc String :=
  match r.output_text with
  | .callableRet s => .ok s
  | .callableRaise e => if e.ty = .typeError then extractTail r else .error e
  | _ => extractTail r

/-- src/translate_client.py, TranslationClient.translate: the user message it
builds, embedding the literal text and the targets joined by a single space
(Python code: a space-join of targets inside the f-string). -/
def userPrompt (text : String) (targets : List String) : String :=
  "Text: \"" ++ text ++ "\"\n" ++
    "Targets (space-separated codes): " ++ String.intercalate " " targets

end TranslationClient

namespace TranslationService

/-- src/translate_service.py, TranslationService.translate, parametrised by
the outcome of the translate call on the wrapped client (ok, or the exception it
raised): a success is returned unchanged; any exception e is re-raised as
ValueError with message "Translation API error: " followed by str(e). -/
def translate (clientOutcome : Except PyExc TranslationResult) :
    Except PyExc TranslationResult :=
  match clientOutcome with
  | .ok r => .ok r
  | .error e => .error { ty := .valueError, msg := "Translation API error: " ++ e.msg }

end TranslationService

/-- An ASCII letter, the character class of the Python regex [A-Za-z]. -/
def isAsciiLetter (c : Char) : Bool :=
  (decide ('A' ≤ c) && decide (c ≤ 'Z')) || (decide ('a' ≤ c) && decide (c ≤ 'z'))

/-- re.fullmatch of [A-Za-z]{2,3} against a target code: length 2 or 3 and
every character an ASCII letter. -/
def matchesLangRegex (t : String) : Bool :=
  (decide (t.length = 2) || decide (t.length = 3)) && t.data.all isAsciiLetter

/-- The fixed allow-list of language codes in src/main.py handle_translate,
in source order. -/
def allowedCodes : List String :=
  ["en", "es", "de", "fr", "it", "pt", "zh", "ja", "ko", "ru", "ar", "hi",
   "nl", "sv", "no", "da", "fi", "pl", "cs", "tr", "el", "he", "th", "vi",
   "id", "ro", "bg", "uk"]

/-- ASCII lowercasing of one character: the A to Z range is shifted into the
a to z range, everything else kept. -/
def pyLowerChar (c : Char) : Char :=
  if 'A' ≤ c && c ≤ 'Z' then Char.ofNat (c.toNat + 32) else c

/-- Python str.lower restricted to ASCII. On strings of ASCII letters this is
exactly the Python str.lower; on every other string the regex clause below
already rejects, and both lowerings can only produce further non-members of
the all-ASCII allow-list, so the restriction never changes the validation
outcome. -/
def pyLower (s : String) : String :=
  ⟨s.data.map pyLowerChar⟩

/-- A target code handle_translate rejects: it fails the [A-Za-z]{2,3} regex
(the condition of _validate_targets) or its lowercasing is not in the
allow-list — the source computes the union of the two failure sets and
rejects when it is non-empty, which is elementwise exactly this test. -/
def badLangCode (t : String) : Bool :=
  !matchesLangRegex t || !(allowedCodes.contains (pyLower t))

/-- A character of the default strip set of Python str.strip, restricted to
ASCII (the Unicode space characters Python also strips are outside the
scope of the claims and noted here). -/
def pyIsSpace (c : Char) : Bool :=
  c = ' ' || c = '\t' || c = '\n' || c = '\r' ||
    c = Char.ofNat 11 || c = Char.ofNat 12

/-- src/main.py, handle_translate, parametrised by the outcome of the
service.translate call and returning (exit code, stderr lines). The guards in
source order: blank text (the Python test is falsy text or falsy
text.strip(), equivalently every character a space character, which also
covers the empty string); empty targets; target-code validation; then the
try/except around the service call. Logging calls and stdout printing carry
no decision and are omitted. -/
def handle_translate (text : String) (targets : List String)
    (serviceOutcome : Except PyExc TranslationResult) : Nat × List String :=
  if text.data.all pyIsSpace then
    (1, ["Error: empty text provided. Please provide text to translate"])
  else if targets.isEmpty then
    (1, ["Error: no target languages provided. Use --to en es de"])
  else if targets.any badLangCode then
    (1, ["Error: invalid language code"])
  else
    match serviceOutcome with
    | .ok _ => (0, [])
    | .error e => (1, ["Error: " ++ e.msg])

/-- src/translate_main.py, ensure_english_included: move "en" to the front
when present (dropping its other occurrences), prepend it when absent. The
informational print in the absent branch carries no data and is omitted. -/
def ensure_english_included (targets : List String) : List String :=
  if targets.contains "en" then "en" :: targets.filter (fun t => t != "en")
  else "en" :: targets

namespace TranslationParser

/-- Claim C1: for every input that decodes as a JSON object holding a string
under detected_language and a mapping under translations, parse succeeds and
the fields detected_language and translations of the result equal the values of the payload
exactly (association lists, so insertion order is preserved), while
original_text equals the original_text value of the payload when that key is
present and the empty string when it is absent. -/
theorem parse_roundtrip (kvs tr : List (String × Json)) (d : String)
    (hd : dictGet kvs "detected_language" = some (Json.str d))
    (ht : dictGet kvs "translations" = some (Json.obj tr)) :
    (∀ v, dictGet kvs "original_text" = some v →
      parse (some (Json.obj kvs)) =
        .ok { original_text := v, detected_language := d, translations := tr })
    ∧ (dictGet kvs "original_text" = none →
      parse (some (Json.obj kvs)) =
        .ok { original_text := Json.str "", detected_language := d, translations := tr }) := by
  constructor
  · intro v hv
    simp [parse, hd, ht, hv]
  · intro hv
    simp [parse, hd, ht, hv]

/-- Claim C1 witness: the scenario payload given in the spec, original_text absent. -/
theorem parse_roundtrip_witness :
    parse (some (Json.obj [("detected_language", Json.str "French"),
        ("translations", Json.obj
          [("en", Json.str "Hello world"), ("es", Json.str "Hola mundo")])])) =
      .ok { original_text := Json.str "", detected_language := "French",
            translations :=
              [("en", Json.str "Hello world"), ("es", Json.str "Hola mundo")] } :=
  (parse_roundtrip
    [("detected_language", Json.str "French"),
     ("translations", Json.obj
       [("en", Json.str "Hello world"), ("es", Json.str "Hola mundo")])]
    [("en", Json.str "Hello world"), ("es", Json.str "Hola mundo")]
    "French" rfl rfl).2 rfl

end TranslationParser

namespace TranslationParser

/-- Claim C2: parse fails with a ValueError exactly when the input is
malformed, the message fixed by the first violated condition in source
order — not valid JSON (json.loads raised, the none case); valid JSON but
not an object at top level; an object missing one of the two required keys;
both keys present but detected_language not a string or translations not a
mapping — and in every other case parse succeeds. Each error case is stated
without assuming the later conditions hold, which captures the priority
order. -/
theorem parse_error_discipline :
    parse none = .error "Expected JSON translation payload"
    ∧ (∀ j : Json, (∀ kvs, j ≠ Json.obj kvs) →
        parse (some j) = .error "Expected JSON object at top level")
    ∧ (∀ kvs, dictGet kvs "detected_language" = none ∨
          dictGet kvs "translations" = none →
        parse (some (Json.obj kvs)) =
          .error "Missing required fields: detected_language, translations")
    ∧ (∀ kvs dv tv, dictGet kvs "detected_language" = some dv →
        dictGet kvs "translations" = some tv →
        ((∀ s, dv ≠ Json.str s) ∨ (∀ m, tv ≠ Json.obj m)) →
        parse (some (Json.obj kvs)) =
          .error "Invalid types for detected_language or translations")
    ∧ (∀ kvs d tr, dictGet kvs "detected_language" = some (Json.str d) →
        dictGet kvs "translations" = some (Json.obj tr) →
        ∃ r, parse (some (Json.obj kvs)) = .ok r) := by
  refine ⟨rfl, ?_, ?_, ?_, ?_⟩
  · intro j hj
    cases j with
    | obj kvs => exact absurd rfl (hj kvs)
    | null => rfl
    | bool b => rfl
    | num n => rfl
    | str s => rfl
    | arr elems => rfl
  · intro kvs h
    rcases h with h | h
    · simp [parse, h]
    · rcases hd : dictGet kvs "detected_language" with _ | dv <;>
        simp [parse, hd, h]
  · intro kvs dv tv hd ht hbad
    rcases hbad with hbad | hbad
    · cases dv with
      | str s => exact absurd rfl (hbad s)
      | null => simp [parse, hd, ht]
      | bool b => simp [parse, hd, ht]
      | num n => simp [parse, hd, ht]
      | arr elems => simp [parse, hd, ht]
      | obj m => cases tv <;> simp [parse, hd, ht]
    · cases tv with
      | obj m => exact absurd rfl (hbad m)
      | null => cases dv <;> simp [parse, hd, ht]
      | bool b => cases dv <;> simp [parse, hd, ht]
      | num n => cases dv <;> simp [parse, hd, ht]
      | arr elems => cases dv <;> simp [parse, hd, ht]
      | str s => cases dv <;> simp [parse, hd, ht]
  · intro kvs d tr hd ht
    exact ⟨{ original_text := (dictGet kvs "original_text").getD (Json.str "")
           , detected_language := d, translations := tr },
      by simp [parse, hd, ht]⟩

/-- Claim C2 witness: one concrete input per error case, together with a
success case, taken from the parser tests of the repository. -/
theorem parse_error_discipline_witness :
    parse none = .error "Expected JSON translation payload"
    ∧ parse (some (Json.arr [Json.str "not", Json.str "a", Json.str "dict"])) =
        .error "Expected JSON object at top level"
    ∧ parse (some (Json.obj [("detected_language", Json.str "English")])) =
        .error "Missing required fields: detected_language, translations"
    ∧ parse (some (Json.obj [("detected_language", Json.num 123),
          ("translations", Json.obj [("en", Json.str "Hello")])])) =
        .error "Invalid types for detected_language or translations"
    ∧ ∃ r, parse (some (Json.obj [("detected_language", Json.str "French"),
          ("translations", Json.obj [("en", Json.str "Hi")])])) = .ok r := by
  refine ⟨parse_error_discipline.1, ?_, ?_, ?_, ?_⟩
  · exact parse_error_discipline.2.1 _ (fun kvs h => Json.noConfusion h)
  · exact parse_error_discipline.2.2.1 _ (Or.inr rfl)
  · exact parse_error_discipline.2.2.2.1 _ _ _ rfl rfl
      (Or.inl (fun s h => Json.noConfusion h))
  · exact parse_error_discipline.2.2.2.2 _ "French" [("en", Json.str "Hi")] rfl rfl

end TranslationParser

namespace TranslationParser

/-- Claim C3 counterexample: the payload whose translations mapping is empty
is accepted by parse, so a successful parse does not guarantee a non-empty
translations mapping — the parser has no non-emptiness check. -/
theorem parse_accepts_empty_translations :
    parse (some (Json.obj [("detected_language", Json.str "French"),
        ("translations", Json.obj [])])) =
      .ok { original_text := Json.str "", detected_language := "French",
            translations := [] } := rfl

/-- Claim C3 amended: after a successful parse the translations field equals
the translations mapping of the payload, which the parser accepts even when
empty — no non-emptiness is enforced. -/
theorem parse_translations_from_payload (loaded : Option Json)
    (r : TranslationResult) (h : parse loaded = .ok r) :
    ∃ kvs, loaded = some (Json.obj kvs) ∧
      dictGet kvs "translations" = some (Json.obj r.translations) := by
  cases loaded with
  | none => exact absurd h (by simp [parse])
  | some j =>
    cases j with
    | obj kvs =>
      refine ⟨kvs, rfl, ?_⟩
      rcases hd : dictGet kvs "detected_language" with _ | dv <;>
        rcases ht : dictGet kvs "translations" with _ | tv <;>
        rw [parse] at h <;> simp [hd, ht] at h
      cases dv <;> cases tv <;> simp at h
      rw [← h]
    | null => exact absurd h (by simp [parse])
    | bool b => exact absurd h (by simp [parse])
    | num n => exact absurd h (by simp [parse])
    | str s => exact absurd h (by simp [parse])
    | arr elems => exact absurd h (by simp [parse])

/-- Claim C3 amended, witness: the empty-translations payload again, run
through the amended theorem. -/
theorem parse_translations_from_payload_witness :
    ∃ kvs, (some (Json.obj [("detected_language", Json.str "German"),
        ("translations", Json.obj [])]) = some (Json.obj kvs)) ∧
      dictGet kvs "translations" = some (Json.obj []) :=
  parse_translations_from_payload _
    { original_text := Json.str "", detected_language := "German",
      translations := [] } rfl

/-- Claim C9: parse performs no validation of the values inside the
translations mapping — whenever detected_language is a string and
translations is a mapping, parse succeeds and the entries of the mapping, of
whatever value shapes, are carried into the result unchanged. -/
theorem parse_values_unchecked (kvs tr : List (String × Json)) (d : String)
    (hd : dictGet kvs "detected_language" = some (Json.str d))
    (ht : dictGet kvs "translations" = some (Json.obj tr)) :
    ∃ r, parse (some (Json.obj kvs)) = .ok r ∧ r.translations = tr := by
  refine ⟨{ original_text := (dictGet kvs "original_text").getD (Json.str "")
          , detected_language := d, translations := tr }, ?_, rfl⟩
  simp [parse, hd, ht]

/-- Claim C9 witness: a payload whose translation values are a number, null
and a nested object is accepted and carried through unchanged. -/
theorem parse_values_unchecked_witness :
    ∃ r, parse (some (Json.obj [("detected_language", Json.str "French"),
        ("translations", Json.obj [("en", Json.num 42), ("es", Json.null),
          ("de", Json.obj [("nested", Json.bool true)])])])) = .ok r ∧
      r.translations = [("en", Json.num 42), ("es", Json.null),
        ("de", Json.obj [("nested", Json.bool true)])] :=
  parse_values_unchecked
    [("detected_language", Json.str "French"),
     ("translations", Json.obj [("en", Json.num 42), ("es", Json.null),
       ("de", Json.obj [("nested", Json.bool true)])])]
    [("en", Json.num 42), ("es", Json.null),
     ("de", Json.obj [("nested", Json.bool true)])]
    "French" rfl rfl

end TranslationParser

namespace TranslationClient

/-- Strategies 2 to 4 of _extract_text always produce a string: the plain
string property, the structured walk, or str(resp) as last resort. -/
lemma extractTail_isOk (r : Resp) : ∃ s, extractTail r = .ok s := by
  unfold extractTail
  cases hot : r.output_text <;> cases hst : structuredText r <;> simp

/-- Claim C4 counterexample: a response whose callable output_text raises a
ValueError (not a TypeError); _extract_text propagates it instead of
swallowing it and falling through, so _extract_text is not total. -/
theorem extract_text_can_raise :
    extract_text
      { output_text := .callableRaise { ty := .valueError, msg := "boom" },
        output := none, strRepr := "<resp>" } =
      .error { ty := ExcType.valueError, msg := "boom" } := rfl

/-- Claim C4 amended: _extract_text returns a string for every response
except when a callable output_text accessor raises something other than a
TypeError, in which case exactly that exception propagates; a TypeError
raised by the callable is swallowed and the later strategies (string
property, structured output walk, str fallback) produce the result. -/
theorem extract_text_error_iff (r : Resp) (e : PyExc) :
    extract_text r = .error e ↔
      r.output_text = .callableRaise e ∧ e.ty ≠ ExcType.typeError := by
  obtain ⟨s0, hs0⟩ := extractTail_isOk r
  constructor
  · intro h
    unfold extract_text at h
    split at h
    · exact absurd h (by simp)
    · rename_i e2 heq
      by_cases hty : e2.ty = ExcType.typeError
      · rw [if_pos hty, hs0] at h
        exact absurd h (by simp)
      · rw [if_neg hty] at h
        injection h with h2
        subst h2
        exact ⟨heq, hty⟩
    · rw [hs0] at h
      exact absurd h (by simp)
  · rintro ⟨hot, hty⟩
    unfold extract_text
    rw [hot]
    exact if_neg hty

/-- Claim C4 amended, witness: at a concrete raising response, the
characterisation instantiates to the propagated non-TypeError exception. -/
theorem extract_text_error_iff_witness :
    extract_text
      { output_text := .callableRaise { ty := .otherError, msg := "rate limited" },
        output := none, strRepr := "<resp obj>" } =
      .error { ty := ExcType.otherError, msg := "rate limited" } :=
  (extract_text_error_iff
    { output_text := .callableRaise { ty := .otherError, msg := "rate limited" },
      output := none, strRepr := "<resp obj>" }
    { ty := ExcType.otherError, msg := "rate limited" }).mpr
    ⟨rfl, by decide⟩

/-- Claim C5: on a response exposing a callable output_text together with a
structured output carrying a text, the result of the callable wins; and when
invoking the callable raises a TypeError, _extract_text returns the text
found by the structured output walk instead. -/
theorem extract_text_precedence (r : Resp) (t : String)
    (hstruct : structuredText r = some t) :
    (∀ s, r.output_text = .callableRet s → extract_text r = .ok s)
    ∧ (∀ e, r.output_text = .callableRaise e → e.ty = ExcType.typeError →
        extract_text r = .ok t) := by
  constructor
  · intro s hot
    unfold extract_text
    rw [hot]
  · intro e hot hty
    have htail : extractTail r = .ok t := by
      unfold extractTail
      rw [hot, hstruct]
    unfold extract_text
    rw [hot]
    exact (if_pos hty).trans htail

/-- Claim C5 witness: the test response shape used by the repository tests — a callable
output_text raising TypeError next to a dict-style structured output — falls
through to the structured text. -/
theorem extract_text_precedence_witness :
    extract_text
      ⟨.callableRaise ⟨.typeError, "Not callable"⟩,
       some [⟨some [⟨none, true, some (.str "structured payload")⟩]⟩],
       "<resp>"⟩ = .ok "structured payload" :=
  (extract_text_precedence
    ⟨.callableRaise ⟨.typeError, "Not callable"⟩,
     some [⟨some [⟨none, true, some (.str "structured payload")⟩]⟩],
     "<resp>"⟩
    "structured payload" rfl).2
    ⟨.typeError, "Not callable"⟩ rfl rfl

end TranslationClient

/-- Claim C6: evaluating the user-message builder at the very
input of the test suite shows the code joins the target codes with a single space, in caller
order; the string "en, es" that both the claim and the repository test
test_translate_happy_path_monolingual_targets expect does not occur in the
message the code builds, so the code contradicts its own test. -/
theorem userPrompt_space_joined :
    TranslationClient.userPrompt "Bonjour le monde" ["en", "es"] =
      "Text: \"Bonjour le monde\"\nTargets (space-separated codes): en es"
    ∧ ¬ List.IsInfix "en, es".data
        (TranslationClient.userPrompt "Bonjour le monde" ["en", "es"]).data := by
  refine ⟨rfl, ?_⟩
  decide

namespace TranslationService

/-- Claim C7: the service returns the success of the wrapped client unchanged, and
re-raises every exception the client raised as a ValueError whose message is
"Translation API error: " followed by the original message; every error the
service ever returns is a ValueError, so no lower-layer exception class
reaches the caller. -/
theorem translate_wraps (clientOutcome : Except PyExc TranslationResult) :
    (∀ r, clientOutcome = .ok r → translate clientOutcome = .ok r)
    ∧ (∀ e, clientOutcome = .error e →
        translate clientOutcome =
          .error ⟨ExcType.valueError, "Translation API error: " ++ e.msg⟩)
    ∧ (∀ e2, translate clientOutcome = .error e2 → e2.ty = ExcType.valueError) := by
  refine ⟨?_, ?_, ?_⟩
  · intro r h
    rw [h]
    rfl
  · intro e h
    rw [h]
    rfl
  · intro e2 h
    cases clientOutcome with
    | ok r => exact absurd h (by simp [translate])
    | error e =>
      have : translate (Except.error e) =
          Except.error ⟨ExcType.valueError, "Translation API error: " ++ e.msg⟩ := rfl
      rw [this] at h
      injection h with h2
      rw [← h2]

/-- Claim C7 witness: the failing client from the service tests, an exception of a
non-ValueError class with message "API Error", is returned as a ValueError
reading "Translation API error: API Error". -/
theorem translate_wraps_witness :
    translate (.error ⟨ExcType.otherError, "API Error"⟩) =
      .error ⟨ExcType.valueError, "Translation API error: API Error"⟩ :=
  (translate_wraps (.error ⟨ExcType.otherError, "API Error"⟩)).2.1
    ⟨ExcType.otherError, "API Error"⟩ rfl

end TranslationService

/-- Claim C10: ensure_english_included always puts "en" first: when "en" is
in the input it is moved to the front with the other codes kept in their
relative order (the tail is the subsequence of non-"en" codes), and when it
is absent it is prepended; in both cases the tail is a subsequence of the
input, so relative order is preserved. -/
theorem ensure_english_first (ts : List String) :
    (ensure_english_included ts).head? = some "en"
    ∧ ("en" ∈ ts → ensure_english_included ts = "en" :: ts.filter (fun t => t != "en"))
    ∧ ("en" ∉ ts → ensure_english_included ts = "en" :: ts)
    ∧ (ensure_english_included ts).tail.Sublist ts := by
  by_cases h : "en" ∈ ts
  · have he : ensure_english_included ts = "en" :: ts.filter (fun t => t != "en") := by
      simp [ensure_english_included, h]
    refine ⟨?_, fun _ => he, fun hn => absurd h hn, ?_⟩
    · rw [he]
      rfl
    · rw [he, List.tail_cons]
      exact List.filter_sublist ts
  · have he : ensure_english_included ts = "en" :: ts := by
      simp [ensure_english_included, h]
    refine ⟨?_, fun hmem => absurd hmem h, fun _ => he, ?_⟩
    · rw [he]
      rfl
    · rw [he, List.tail_cons]

/-- Claim C10 witness: the interactive-mode test lists of the repository —
"en" present mid-list is moved to the front, and a list without "en" gets it
prepended. -/
theorem ensure_english_first_witness :
    ("en" ∈ ["es", "en", "de"]
      ∧ ensure_english_included ["es", "en", "de"] = ["en", "es", "de"])
    ∧ ("en" ∉ ["es", "fr", "de"]
      ∧ ensure_english_included ["es", "fr", "de"] = ["en", "es", "fr", "de"]) := by
  refine ⟨⟨by decide, ?_⟩, ⟨by decide, ?_⟩⟩
  · rw [(ensure_english_first ["es", "en", "de"]).2.1 (by decide)]
    rfl
  · rw [(ensure_english_first ["es", "fr", "de"]).2.2.1 (by decide)]

/-- Claim C8 counterexample: the invocation with text a single space (a
non-empty string) and the invalid target "xx" exits with code 1 but prints
the empty-text error, not one containing "invalid language code" — the
blank-text guard fires first, so the claimed biconditional fails for
non-empty but blank text. -/
theorem handle_translate_blank_text_cex :
    (" " ≠ "")
    ∧ badLangCode "xx" = true
    ∧ handle_translate " " ["xx"]
        (.ok ⟨Json.str "", "English", [("en", Json.str "Hi")]⟩)
        = (1, ["Error: empty text provided. Please provide text to translate"])
    ∧ ¬ List.IsInfix "invalid language code".data
        "Error: empty text provided. Please provide text to translate".data := by
  exact ⟨by decide, by decide, rfl, by decide⟩

/-- Claim C8 amended: for every invocation whose text has at least one
non-whitespace character and whose targets list is non-empty,
handle_translate stops before the translation service is consulted — exiting
with code 1 and stderr exactly "Error: invalid language code", whatever the
service outcome would have been — if and only if some target either fails
the [A-Za-z]\x7b2,3\x7d regex or is not case-insensitively in the fixed
28-code allow-list. -/
theorem handle_translate_invalid_code_iff (text : String) (targets : List String)
    (htext : text.data.any (fun c => !pyIsSpace c) = true)
    (htargets : targets ≠ []) :
    (∀ outcome, handle_translate text targets outcome =
        (1, ["Error: invalid language code"]))
      ↔ ∃ t ∈ targets, badLangCode t = true := by
  have hsp : text.data.all pyIsSpace = false := by
    rcases List.any_eq_true.mp htext with ⟨c, hc, hcs⟩
    rw [Bool.eq_false_iff]
    intro hall
    have hct := List.all_eq_true.mp hall c hc
    simp [hct] at hcs
  have hemp : targets.isEmpty = false := by
    cases targets with
    | nil => exact absurd rfl htargets
    | cons a l => rfl
  constructor
  · intro hall
    by_contra hno
    have hany : targets.any badLangCode = false := by
      rw [Bool.eq_false_iff]
      intro htrue
      exact hno (List.any_eq_true.mp htrue)
    have h0 := hall (.ok ⟨Json.str "", "", []⟩)
    simp [handle_translate, hsp, hemp, hany] at h0
  · rintro ⟨t, ht, hbad⟩ outcome
    have hany : targets.any badLangCode = true :=
      List.any_eq_true.mpr ⟨t, ht, hbad⟩
    simp [handle_translate, hsp, hemp, hany]

/-- Claim C8 amended, witness: the invocation from the CLI tests, text "Hello" and
the off-list target "xx", is rejected with exit code 1 and the invalid
language code message. -/
theorem handle_translate_invalid_code_iff_witness :
    handle_translate "Hello" ["xx"]
        (.ok ⟨Json.str "", "English", [("en", Json.str "Hi")]⟩)
      = (1, ["Error: invalid language code"]) :=
  (handle_translate_invalid_code_iff "Hello" ["xx"] (by decide) (by decide)).mpr
    ⟨"xx", by decide, by decide⟩
    (.ok ⟨Json.str "", "English", [("en", Json.str "Hi")]⟩)
